import Mathlib

/-!
Verification development for a Todo REST service: a flat-file-persisted
Record Store with an id-assigning DAO (spec-modelled, the persistence
module being outside the provided sources) together with the HTTP route
handlers of `src/routers/todo.py`, embedded shallowly.
-/

/-- Input shape for create/replace: a todo without its id
(`TodoCreate` of the data model: `text`, `done`). -/
structure TodoCreate where
  text : String
  done : Bool
deriving DecidableEq, Repr

/-- A stored todo record: positive-integer id assigned by the store,
plus the `text` and `done` payload. -/
structure Todo where
  id : Nat
  text : String
  done : Bool
deriving DecidableEq, Repr

/-- Modelled from the spec: the Record Store / DAO state of the missing
persistence module (`TodoDao`): an in-memory mapping from id to Todo kept
as an insertion-ordered association list, plus the monotonically
increasing id counter. -/
structure DaoState where
  store : List (Nat × Todo)
  counter : Nat
deriving DecidableEq, Repr

/-- First-match lookup in the insertion-ordered mapping. -/
def lookupTodo : List (Nat × Todo) → Nat → Option Todo
  | [], _ => none
  | (k, t) :: rest, i => if k = i then some t else lookupTodo rest i

/-- Replace the record stored under `t.id` by `t`, keeping its position;
append if the id is absent (mapping-assignment semantics). -/
def storeUpdate : List (Nat × Todo) → Todo → List (Nat × Todo)
  | [], t => [(t.id, t)]
  | (k, u) :: rest, t =>
    if k = t.id then (k, t) :: rest else (k, u) :: storeUpdate rest t

/-- Remove every record stored under id `i` from the mapping. -/
def storeDelete (l : List (Nat × Todo)) (i : Nat) : List (Nat × Todo) :=
  l.filter (fun p => p.1 ≠ i)

namespace DaoState

/-- Modelled from the spec: `get(id) -> Todo or absent` of the missing
DAO; total, returns the stored todo when present and `none` otherwise. -/
def get (st : DaoState) (i : Nat) : Option Todo :=
  lookupTodo st.store i

/-- Modelled from the spec: `get_all()` of the missing DAO; all stored
todos in insertion/load order. -/
def get_all (st : DaoState) : List Todo :=
  st.store.map Prod.snd

/-- Modelled from the spec: `save(TodoCreate)` of the missing DAO;
consumes the next integer of the counter as the new id, stores the full
Todo, and returns it. -/
def save (st : DaoState) (tc : TodoCreate) : Todo × DaoState :=
  let newId := st.counter + 1
  let t : Todo := ⟨newId, tc.text, tc.done⟩
  (t, ⟨st.store ++ [(newId, t)], newId⟩)

/-- Modelled from the spec: `update(Todo)` of the missing DAO; full
replace of the record stored under the given todo's id. -/
def update (st : DaoState) (t : Todo) : Todo × DaoState :=
  (t, ⟨storeUpdate st.store t, st.counter⟩)

/-- Modelled from the spec: `delete(id)` of the missing DAO; removes the
record, leaving the counter untouched so ids are never recycled. -/
def delete (st : DaoState) (i : Nat) : DaoState :=
  ⟨storeDelete st.store i, st.counter⟩

end DaoState

/-- Well-formedness of a DAO state: every stored record carries its own
key as its id, and no key exceeds the counter (so the next id is fresh). -/
def WFDao (st : DaoState) : Prop :=
  ∀ p ∈ st.store, p.2.id = p.1 ∧ p.1 ≤ st.counter

instance (st : DaoState) : Decidable (WFDao st) :=
  List.decidableBAll _ st.store

/-- Minimal JSON value model for the backing file's contents. -/
inductive Json where
  | jnull
  | jbool (b : Bool)
  | jnum (n : Nat)
  | jstr (s : String)
  | jarr (items : List Json)
  | jobj (fields : List (String × Json))

/-- Serialize one todo as a JSON object with `id`, `text`, `done`. -/
def todoToJson (t : Todo) : Json :=
  .jobj [("id", .jnum t.id), ("text", .jstr t.text), ("done", .jbool t.done)]

/-- Parse one todo object; `none` on any other shape. -/
def jsonToTodo : Json → Option Todo
  | .jobj [("id", .jnum i), ("text", .jstr s), ("done", .jbool b)] =>
    some ⟨i, s, b⟩
  | _ => none

/-- Parse a list of todo objects, failing if any element is malformed. -/
def parseTodoList : List Json → Option (List Todo)
  | [] => some []
  | j :: rest =>
    match jsonToTodo j, parseTodoList rest with
    | some t, some ts => some (t :: ts)
    | _, _ => none

/-- Modelled from the spec: parse the backing file's JSON document (a
single array of todo records) into the list of todos; `none` means
malformed contents. -/
def parseTodos : Json → Option (List Todo)
  | .jarr items => parseTodoList items
  | _ => none

/-- Modelled from the spec: Flush — serialize the full in-memory mapping
as a JSON array, overwriting prior file contents. -/
def flushJson (st : DaoState) : Json :=
  .jarr (st.store.map (fun p => todoToJson p.2))

/-- Rebuild the in-memory mapping from parsed todos (key = record id). -/
def loadStore (todos : List Todo) : List (Nat × Todo) :=
  todos.map (fun t => (t.id, t))

/-- Seed the id counter from the maximum id in the loaded data (0 if
empty). -/
def seedCounter (todos : List Todo) : Nat :=
  (todos.map Todo.id).foldr max 0

/-- Modelled from the spec: Load at construction — an absent backing
file (`none`) yields the empty mapping (not an error); malformed
contents is a fatal startup error; otherwise the parsed mapping with the
counter seeded from the maximum id. -/
def loadDao : Option Json → Except String DaoState
  | none => .ok ⟨[], 0⟩
  | some j =>
    match parseTodos j with
    | none => .error "malformed"
    | some todos => .ok ⟨loadStore todos, seedCounter todos⟩

/-- Outcome of a route handler: a success status with a body, or an
`HTTPException` with a status code and detail string. -/
inductive RouteResult (α : Type) where
  | ok (status : Nat) (body : α)
  | httpError (status : Nat) (detail : String)
deriving DecidableEq, Repr

/-- Response of the create route: status, `Location` header, body. -/
structure CreateResponse where
  status : Nat
  location : String
  body : Todo
deriving DecidableEq, Repr

/-- Response of an OPTIONS route: status, `Allow` header, raw body. -/
structure OptionsResponse where
  status : Nat
  allow : String
  body : String
deriving DecidableEq, Repr

/-- `create_todo` of `src/routers/todo.py`: saves the todo, returns 201
with the created record and a `Location` header built from its id. -/
def create_todo (st : DaoState) (tc : TodoCreate) : CreateResponse × DaoState :=
  let (created, st') := st.save tc
  (⟨201, "/todos/" ++ toString created.id, created⟩, st')

/-- `get_todo` of `src/routers/todo.py`: 404 if the DAO finds nothing,
otherwise the stored todo. -/
def get_todo (st : DaoState) (i : Nat) : RouteResult Todo :=
  match st.get i with
  | none => .httpError 404 "Todo not found"
  | some t => .ok 200 t

/-- `update_todo` of `src/routers/todo.py`: checks existence first (404
without touching the DAO otherwise), then performs a full replace with a
Todo rebuilt from the path id and the request body. -/
def update_todo (st : DaoState) (i : Nat) (tc : TodoCreate) :
    RouteResult Todo × DaoState :=
  match st.get i with
  | none => (.httpError 404 "Todo not found", st)
  | some _ =>
    let (res, st') := st.update ⟨i, tc.text, tc.done⟩
    (.ok 200 res, st')

/-- `delete_todo` of `src/routers/todo.py`: checks existence first (404
without touching the DAO otherwise), then deletes and returns 204. -/
def delete_todo (st : DaoState) (i : Nat) : RouteResult Unit × DaoState :=
  match st.get i with
  | none => (.httpError 404 "Todo not found", st)
  | some _ => (.ok 204 (), st.delete i)

/-- `todo_options` of `src/routers/todo.py`: always 200 with the `Allow`
header and an empty JSON object body; takes only the path id and never
consults the store. -/
def todo_options (_i : Nat) : OptionsResponse :=
  ⟨200, "GET,PUT,DELETE,OPTIONS", "\x7b\x7d"⟩

/-- `todos_options` of `src/routers/todo.py`: collection-level OPTIONS. -/
def todos_options : OptionsResponse :=
  ⟨200, "GET,POST,OPTIONS", "\x7b\x7d"⟩

/-- One API-level operation of a run. -/
inductive Op where
  | opSave (tc : TodoCreate)
  | opUpdate (i : Nat) (tc : TodoCreate)
  | opDelete (i : Nat)
deriving DecidableEq, Repr

/-- Run a sequence of operations through the route handlers, collecting
the ids returned by the save (create) calls in order. -/
def runOps (st : DaoState) : List Op → DaoState × List Nat
  | [] => (st, [])
  | Op.opSave tc :: rest =>
    let r := create_todo st tc
    let rec' := runOps r.2 rest
    (rec'.1, r.1.body.id :: rec'.2)
  | Op.opUpdate i tc :: rest => runOps (update_todo st i tc).2 rest
  | Op.opDelete i :: rest => runOps (delete_todo st i).2 rest

/-! ### Lookup and store lemmas -/

theorem lookupTodo_append_of_forall_ne (l m : List (Nat × Todo)) (i : Nat)
    (h : ∀ p ∈ l, p.1 ≠ i) :
    lookupTodo (l ++ m) i = lookupTodo m i := by
  induction l with
  | nil => rfl
  | cons p rest ih =>
    obtain ⟨k, t⟩ := p
    simp only [List.cons_append, lookupTodo]
    rw [if_neg (h (k, t) (List.mem_cons_self _ _))]
    exact ih (fun q hq => h q (List.mem_cons_of_mem _ hq))

theorem lookupTodo_eq_some_mem {l : List (Nat × Todo)} {i : Nat} {t : Todo}
    (h : lookupTodo l i = some t) : (i, t) ∈ l := by
  induction l with
  | nil => simp [lookupTodo] at h
  | cons p rest ih =>
    obtain ⟨k, u⟩ := p
    by_cases hk : k = i
    · subst hk
      have hu : u = t := by simpa [lookupTodo] using h
      subst hu
      exact List.mem_cons_self _ _
    · simp only [lookupTodo, if_neg hk] at h
      exact List.mem_cons_of_mem _ (ih h)

theorem lookupTodo_storeUpdate (l : List (Nat × Todo)) (t : Todo) :
    lookupTodo (storeUpdate l t) t.id = some t := by
  induction l with
  | nil => simp [storeUpdate, lookupTodo]
  | cons p rest ih =>
    obtain ⟨k, u⟩ := p
    by_cases hk : k = t.id
    · simp [storeUpdate, hk, lookupTodo]
    · simp [storeUpdate, hk, lookupTodo, ih]

theorem lookupTodo_storeDelete_self (l : List (Nat × Todo)) (i : Nat) :
    lookupTodo (storeDelete l i) i = none := by
  induction l with
  | nil => rfl
  | cons p rest ih =>
    obtain ⟨k, u⟩ := p
    by_cases hk : k = i
    · simpa [storeDelete, List.filter_cons, hk] using ih
    · simpa [storeDelete, List.filter_cons, hk, lookupTodo] using ih

/-! ### Counter lemmas -/

theorem update_todo_counter (st : DaoState) (i : Nat) (tc : TodoCreate) :
    (update_todo st i tc).2.counter = st.counter := by
  cases h : st.get i <;> simp [update_todo, h, DaoState.update]

theorem delete_todo_counter (st : DaoState) (i : Nat) :
    (delete_todo st i).2.counter = st.counter := by
  cases h : st.get i <;> simp [delete_todo, h, DaoState.delete]

theorem create_todo_counter (st : DaoState) (tc : TodoCreate) :
    (create_todo st tc).2.counter = st.counter + 1 := rfl

theorem create_todo_body_id (st : DaoState) (tc : TodoCreate) :
    (create_todo st tc).1.body.id = st.counter + 1 := rfl

theorem runOps_ids_gt (ops : List Op) :
    ∀ st : DaoState, ∀ j ∈ (runOps st ops).2, st.counter < j := by
  induction ops with
  | nil => intro st j hj; simp [runOps] at hj
  | cons op rest ih =>
    intro st j hj
    cases op with
    | opSave tc =>
      simp only [runOps, List.mem_cons] at hj
      rcases hj with h | h
      · subst h
        rw [create_todo_body_id]
        omega
      · have h1 := ih (create_todo st tc).2 j h
        rw [create_todo_counter] at h1
        omega
    | opUpdate i tc =>
      simp only [runOps] at hj
      have h1 := ih _ j hj
      rwa [update_todo_counter] at h1
    | opDelete i =>
      simp only [runOps] at hj
      have h1 := ih _ j hj
      rwa [delete_todo_counter] at h1

/-! ### Serialization round-trip lemmas -/

theorem jsonToTodo_todoToJson (t : Todo) : jsonToTodo (todoToJson t) = some t := by
  cases t
  rfl

theorem parseTodoList_map_todoToJson (l : List Todo) :
    parseTodoList (l.map todoToJson) = some l := by
  induction l with
  | nil => rfl
  | cons t rest ih =>
    simp only [List.map_cons, parseTodoList, jsonToTodo_todoToJson, ih]

theorem loadStore_map_snd (l : List (Nat × Todo)) (h : ∀ p ∈ l, p.2.id = p.1) :
    loadStore (l.map Prod.snd) = l := by
  induction l with
  | nil => rfl
  | cons p rest ih =>
    have hp := h p (List.mem_cons_self _ _)
    have hrest := ih (fun q hq => h q (List.mem_cons_of_mem _ hq))
    obtain ⟨k, t⟩ := p
    simp only [loadStore, List.map_cons] at hrest ⊢
    rw [hrest, hp]

/-! ### Claim theorems -/

/-- C1: across any sequence of save, update and delete operations within
one process lifetime, the ids returned by successive saves are strictly
increasing (hence pairwise unique), and no assigned id is ever assigned
again by a later save, even after the record was deleted. -/
theorem saved_ids_strictly_increasing (ops : List Op) : ∀ st : DaoState,
    List.Pairwise (· < ·) (runOps st ops).2 := by
  induction ops with
  | nil => intro st; simp [runOps]
  | cons op rest ih =>
    intro st
    cases op with
    | opSave tc =>
      simp only [runOps]
      refine List.Pairwise.cons (fun j hj => ?_) (ih _)
      have h1 := runOps_ids_gt rest (create_todo st tc).2 j hj
      rw [create_todo_counter] at h1
      rw [create_todo_body_id]
      omega
    | opUpdate i tc => simpa only [runOps] using ih _
    | opDelete i => simpa only [runOps] using ih _

/-- C2: for any well-formed state, if `save` returns a Todo with id `n`,
then `get n` immediately afterwards returns exactly that Todo, whose
text and done fields are the input's. -/
theorem save_then_get (st : DaoState) (hwf : WFDao st) (tc : TodoCreate) :
    ((st.save tc).2).get ((st.save tc).1).id = some ((st.save tc).1) ∧
    ((st.save tc).1).text = tc.text ∧ ((st.save tc).1).done = tc.done := by
  refine ⟨?_, rfl, rfl⟩
  show lookupTodo
      (st.store ++ [(st.counter + 1, ⟨st.counter + 1, tc.text, tc.done⟩)])
      (st.counter + 1) = some ⟨st.counter + 1, tc.text, tc.done⟩
  rw [lookupTodo_append_of_forall_ne]
  · simp [lookupTodo]
  · intro p hp
    have h1 := (hwf p hp).2
    omega

/-- C3: for any id present in the store, the PUT handler performs a full
replace: a following `get` returns a Todo whose text and done fields are
exactly those of the given data (any previous done value overwritten). -/
theorem update_then_get (st : DaoState) (i : Nat) (tc : TodoCreate)
    (h : (st.get i).isSome) :
    ((update_todo st i tc).2).get i = some ⟨i, tc.text, tc.done⟩ := by
  obtain ⟨u, hu⟩ := Option.isSome_iff_exists.mp h
  simp only [update_todo, hu]
  simp only [DaoState.update, DaoState.get]
  exact lookupTodo_storeUpdate st.store ⟨i, tc.text, tc.done⟩

/-- C4: for any well-formed state and id present in it, after the DELETE
handler runs, `get` on that id returns `none`, and the id is never among
the ids returned by any later sequence of saves. -/
theorem delete_then_get_none_and_id_not_reused (st : DaoState) (hwf : WFDao st)
    (i : Nat) (h : (st.get i).isSome) (ops : List Op) :
    ((delete_todo st i).2).get i = none ∧
    ∀ j ∈ (runOps (delete_todo st i).2 ops).2, j ≠ i := by
  obtain ⟨u, hu⟩ := Option.isSome_iff_exists.mp h
  have hmem : (i, u) ∈ st.store := lookupTodo_eq_some_mem hu
  have hle : i ≤ st.counter := (hwf _ hmem).2
  constructor
  · simp only [delete_todo, hu]
    simp only [DaoState.delete, DaoState.get]
    exact lookupTodo_storeDelete_self st.store i
  · intro j hj
    have hgt := runOps_ids_gt ops (delete_todo st i).2 j hj
    have hc : (delete_todo st i).2.counter = st.counter := delete_todo_counter st i
    omega

/-- C5: round-trip persistence — loading the Record Store back from the
JSON document written by flush reconstructs exactly the in-memory
mapping that was flushed. -/
theorem flush_then_load (st : DaoState) (hwf : WFDao st) :
    loadDao (some (flushJson st)) =
      Except.ok ⟨st.store, seedCounter st.get_all⟩ := by
  have h1 : st.store.map (fun p => todoToJson p.2) =
      (st.store.map Prod.snd).map todoToJson := by
    rw [List.map_map]
    rfl
  have h2 : parseTodos (flushJson st) = some (st.store.map Prod.snd) := by
    simp only [flushJson, parseTodos, h1, parseTodoList_map_todoToJson]
  have h3 : loadStore (st.store.map Prod.snd) = st.store :=
    loadStore_map_snd st.store (fun p hp => (hwf p hp).1)
  simp only [loadDao, h2, h3, DaoState.get_all]

/-- C6: `get` is total (an `Option`, never an exception); the GET route
is the sole producer of the 404 NotFound signal, returning the stored
todo exactly when `get` is `some` and 404 exactly when it is `none`. -/
theorem get_absent_translated_to_404 (st : DaoState) (i : Nat) :
    (∀ t : Todo, get_todo st i = RouteResult.ok 200 t ↔ st.get i = some t) ∧
    (get_todo st i = RouteResult.httpError 404 "Todo not found" ↔
      st.get i = none) := by
  cases h : st.get i <;> simp [get_todo, h]

/-- C7: on an absent id, the PUT and DELETE handlers signal 404 and
return the state unchanged — the DAO's update/delete mutations are never
reached, so neither store nor backing file is touched. -/
theorem absent_id_precheck_unchanged (st : DaoState) (i : Nat) (tc : TodoCreate)
    (h : st.get i = none) :
    update_todo st i tc = (.httpError 404 "Todo not found", st) ∧
    delete_todo st i = (.httpError 404 "Todo not found", st) := by
  constructor <;> simp [update_todo, delete_todo, h]

/-- C8: construction from an absent backing file yields the empty
mapping without error, while malformed file contents is a fatal
construction error (no recovery, no partial load). -/
theorem load_absent_vs_malformed :
    loadDao none = Except.ok ⟨[], 0⟩ ∧
    ∀ j : Json, parseTodos j = none →
      loadDao (some j) = Except.error "malformed" := by
  refine ⟨rfl, fun j h => ?_⟩
  simp [loadDao, h]

/-- C9: the create route returns status 201 with the saved Todo (id
populated by the store) as its body and a Location header equal to
"/todos/" followed by that Todo's id. -/
theorem create_todo_response (st : DaoState) (tc : TodoCreate) :
    (create_todo st tc).1.status = 201 ∧
    (create_todo st tc).1.body = (st.save tc).1 ∧
    (create_todo st tc).1.location =
      "/todos/" ++ toString ((create_todo st tc).1.body.id) :=
  ⟨rfl, rfl, rfl⟩

/-- C10: the per-todo OPTIONS route returns 200 with Allow header
"GET,PUT,DELETE,OPTIONS" and an empty JSON object body for every id —
it takes no store at all, so it cannot consult it and never 404s. -/
theorem todo_options_response (i : Nat) :
    todo_options i = ⟨200, "GET,PUT,DELETE,OPTIONS", "\x7b\x7d"⟩ :=
  rfl

/-! ### Witnesses -/

/-- Witness for C2 at a concrete well-formed one-record state. -/
theorem save_then_get_witness :
    ((DaoState.save ⟨[(1, ⟨1, "a", false⟩)], 1⟩ ⟨"b", true⟩).2).get
        ((DaoState.save ⟨[(1, ⟨1, "a", false⟩)], 1⟩ ⟨"b", true⟩).1).id =
      some ((DaoState.save ⟨[(1, ⟨1, "a", false⟩)], 1⟩ ⟨"b", true⟩).1) ∧
    ((DaoState.save ⟨[(1, ⟨1, "a", false⟩)], 1⟩ ⟨"b", true⟩).1).text = "b" ∧
    ((DaoState.save ⟨[(1, ⟨1, "a", false⟩)], 1⟩ ⟨"b", true⟩).1).done = true :=
  save_then_get ⟨[(1, ⟨1, "a", false⟩)], 1⟩ (by decide) ⟨"b", true⟩

/-- Witness for C3: replacing a done=false record overwrites done. -/
theorem update_then_get_witness :
    ((update_todo ⟨[(1, ⟨1, "a", false⟩)], 1⟩ 1 ⟨"b", true⟩).2).get 1 =
      some ⟨1, "b", true⟩ :=
  update_then_get ⟨[(1, ⟨1, "a", false⟩)], 1⟩ 1 ⟨"b", true⟩ (by decide)

/-- Witness for C4: delete id 1, then a save returns id 2 ≠ 1. -/
theorem delete_then_get_witness :
    ((delete_todo ⟨[(1, ⟨1, "a", false⟩)], 1⟩ 1).2).get 1 = none ∧
    (2 : Nat) ≠ 1 := by
  have h := delete_then_get_none_and_id_not_reused ⟨[(1, ⟨1, "a", false⟩)], 1⟩
    (by decide) 1 (by decide) [Op.opSave ⟨"c", false⟩]
  exact ⟨h.1, h.2 2 (by decide)⟩

/-- Witness for C5 at a concrete well-formed one-record state. -/
theorem flush_then_load_witness :
    loadDao (some (flushJson ⟨[(1, ⟨1, "a", false⟩)], 1⟩)) =
      Except.ok ⟨[(1, ⟨1, "a", false⟩)],
        seedCounter (DaoState.get_all ⟨[(1, ⟨1, "a", false⟩)], 1⟩)⟩ :=
  flush_then_load ⟨[(1, ⟨1, "a", false⟩)], 1⟩ (by decide)

/-- Witness for C6: present id served, absent id mapped to 404. -/
theorem get_todo_witness :
    get_todo ⟨[(1, ⟨1, "a", false⟩)], 1⟩ 1 = RouteResult.ok 200 ⟨1, "a", false⟩ ∧
    get_todo ⟨[(1, ⟨1, "a", false⟩)], 1⟩ 2 =
      RouteResult.httpError 404 "Todo not found" := by
  constructor
  · exact ((get_absent_translated_to_404 ⟨[(1, ⟨1, "a", false⟩)], 1⟩ 1).1
      ⟨1, "a", false⟩).mpr rfl
  · exact (get_absent_translated_to_404 ⟨[(1, ⟨1, "a", false⟩)], 1⟩ 2).2.mpr rfl

/-- Witness for C7 at the empty state and an absent id. -/
theorem absent_id_precheck_witness :
    update_todo ⟨[], 0⟩ 1 ⟨"b", true⟩ =
      (.httpError 404 "Todo not found", ⟨[], 0⟩) ∧
    delete_todo ⟨[], 0⟩ 1 = (.httpError 404 "Todo not found", ⟨[], 0⟩) :=
  absent_id_precheck_unchanged ⟨[], 0⟩ 1 ⟨"b", true⟩ rfl

/-- Witness for C8: a bare number is malformed file contents. -/
theorem load_malformed_witness :
    loadDao none = Except.ok ⟨[], 0⟩ ∧
    loadDao (some (Json.jnum 0)) = Except.error "malformed" :=
  ⟨load_absent_vs_malformed.1, load_absent_vs_malformed.2 (Json.jnum 0) rfl⟩

/-! ### The worked scenario of the spec, checked against the model -/

/-- The spec's example run: two saves, a delete of id 1, a third save;
ids come out 1, 2, 3 (id 1 not reused) and `get_all` lists ids 2, 3. -/
theorem spec_example_scenario :
    (runOps ⟨[], 0⟩
        [Op.opSave ⟨"buy milk", false⟩, Op.opSave ⟨"pay bills", false⟩,
         Op.opDelete 1, Op.opSave ⟨"call mom", false⟩]).2 = [1, 2, 3] ∧
    (runOps ⟨[], 0⟩
        [Op.opSave ⟨"buy milk", false⟩, Op.opSave ⟨"pay bills", false⟩,
         Op.opDelete 1, Op.opSave ⟨"call mom", false⟩]).1.get_all =
      [⟨2, "pay bills", false⟩, ⟨3, "call mom", false⟩] := by
  constructor <;> rfl
